import Mathlib

/-!
Verification of the authentication and session core of the All-In-One-PWA
repository, as a shallow embedding in Lean 4.

The backend is Node.js/Express over SQLite.  Pure logic (password policy,
TOTP window check, secrets resolution) is translated directly; the SQLite
tables become explicit Lean state (`DB`), and each service operation becomes
a function `DB → args → DB × Except String result`, returning the unchanged
state on the error paths exactly where the JavaScript performs no write.
External cryptographic primitives (bcrypt, speakeasy HMAC digests, JWT
signing) are modelled by executable stand-ins that preserve the properties
the service code relies on (hash verification succeeds exactly for the
hashed password; a TOTP value is a deterministic 6-digit function of
secret and time step; a signed token is a structured value carrying payload,
issue time, expiry and signing key).
-/

deriving instance DecidableEq for Except

/-! ## Credential verifier (src: backend/src/utils/password.js) -/

/-- Model of `bcrypt.hash(password, rounds)`: an injective tagging of the
password.  Only the property "verify succeeds exactly on the hashed
password" is relied upon by the service code. -/
def hashPassword (password : String) : String :=
  "bcrypt12" ++ password

/-- Model of `bcrypt.compare(password, hash)`. -/
def verifyPassword (password hash : String) : Bool :=
  decide (hash = hashPassword password)

/-- ASCII letter test, modelling the JS regex `[a-zA-Z]`. -/
def isAsciiLetter (c : Char) : Bool :=
  (('a' ≤ c) && (c ≤ 'z')) || (('A' ≤ c) && (c ≤ 'Z'))

/-- The punctuation set of the JS regex in `validatePassword`
(`!@#$%^&*(),.?":\x7b\x7d|<>`). -/
def specialChars : List Char :=
  ['!', '@', '#', '$', '%', '^', '&', '*', '(', ')', ',', '.', '?', '"',
   ':', '\x7b', '\x7d', '|', '<', '>']

def hasDigit (p : String) : Bool := p.data.any Char.isDigit

def hasLetter (p : String) : Bool := p.data.any isAsciiLetter

def hasSpecial (p : String) : Bool := p.data.any (fun c => specialChars.contains c)

/-- `config.passwordMinLength` from backend/src/config/index.js. -/
def passwordMinLength : Nat := 24

/-- Translation of `validatePassword` (password.js, lines 43-71).
Returns `none` when valid, `some errorMessage` when invalid; the JS object
`\x7bvalid, error\x7d` always pairs `valid:false` with an error string.
The JS falsy check `!password` is, for a string argument, the empty-string
test. -/
def validatePassword (password : String) : Option String :=
  if password.isEmpty then
    some "Password is required"
  else if password.length < passwordMinLength then
    some "Password must be at least 24 characters long"
  else if !hasDigit password then
    some "Password must contain at least one number"
  else if !hasLetter password then
    some "Password must contain at least one letter"
  else if !hasSpecial password then
    some "Password must contain at least one special character"
  else
    none

/-! ## TOTP engine (src: backend/src/utils/2fa.js) -/

/-- Decimal digit character for `n % 10`. -/
def digitChar (n : Nat) : Char :=
  match n % 10 with
  | 0 => '0' | 1 => '1' | 2 => '2' | 3 => '3' | 4 => '4'
  | 5 => '5' | 6 => '6' | 7 => '7' | 8 => '8' | _ => '9'

/-- Zero-padded 6-digit rendering of `n % 1000000`, as an authenticator
code string. -/
def pad6 (n : Nat) : String :=
  String.mk [digitChar (n / 100000), digitChar (n / 10000), digitChar (n / 1000),
             digitChar (n / 100), digitChar (n / 10), digitChar n]

/-- Deterministic mix of a base32 secret into a numeric seed (stand-in for
the HMAC keying of the external speakeasy library). -/
def secretMix (secret : String) : Nat :=
  secret.data.foldl (fun a c => (a * 131 + c.toNat) % 1000003) 7

/-- Model of the external speakeasy TOTP digest value (`hotp` truncation):
the numeric code value, below 1000000, at a given 30-second time step for
a given secret.  Executable stand-in for the HMAC-SHA1 truncation; the
service code treats it as an opaque deterministic function of
(secret, step). -/
def totpNat (secret : String) (step : Int) : Nat :=
  (((secretMix secret : Int) + step * 1009).emod 1000000).toNat

/-- The 6-digit code string speakeasy's `hotp` returns: the zero-padded
decimal rendering of the digest value. -/
def totpValue (secret : String) (step : Int) : String :=
  pad6 (totpNat secret step)

/-- Numeric value of a digit string (the digit-consuming loop of JS
`parseInt`). -/
def digitsToNat (ds : List Char) : Nat :=
  ds.foldl (fun a c => a * 10 + (c.toNat - 48)) 0

/-- The longest digit prefix as a number, or `none` when there is no
leading digit. -/
def parseDigits (cs : List Char) : Option Nat :=
  let ds := cs.takeWhile Char.isDigit
  if ds.isEmpty then none else some (digitsToNat ds)

/-- Model of JS `parseInt(s, 10)`: skip leading whitespace, consume an
optional sign, then the longest digit prefix; `none` models `NaN` (no
leading digit).  Trailing garbage is ignored, so `parseInt("12a456")`
is 12. -/
def jsParseInt (s : String) : Option Int :=
  let cs := s.data.dropWhile (fun c =>
    (c = ' ') || (c = '\t') || (c = '\n') || (c = '\r'))
  if cs.isEmpty then none
  else if cs.headD ' ' = '-' then (parseDigits cs.tail).map (fun m => -(m : Int))
  else if cs.headD ' ' = '+' then (parseDigits cs.tail).map (fun m => (m : Int))
  else (parseDigits cs).map (fun m => (m : Int))

/-- The step offsets examined by `speakeasy.totp.verify` for a window `w`:
`-w, ..., 0, ..., w`, scanned in ascending order. -/
def windowOffsets (w : Nat) : List Int :=
  (List.range (2 * w + 1)).map (fun i => (i : Int) - (w : Int))

/-- Model of speakeasy 2.x `totp.verify` / `hotp.verifyDelta`
(`speakeasy.totp.verify(\x7bsecret, token, window\x7d)`): fail when the token
length differs from the digit count (6); parse the token with
`parseInt(token, 10)` and fail on `NaN`; otherwise scan the window
comparing `parseInt(hotp(...), 10) === token`, i.e. digest values are
compared as parsed integers, not as strings. -/
def speakeasyTotpVerify (secret token : String) (step : Int) (w : Nat) : Bool :=
  if token.length = 6 then
    match jsParseInt token with
    | none => false
    | some n =>
      (windowOffsets w).any (fun d =>
        decide (jsParseInt (totpValue secret (step + d)) = some n))
  else false

/-- Translation of `verifyToken` (2fa.js, lines 47-57): window fixed at 2.
`step` is the current 30-second time step. -/
def verifyToken (secret token : String) (step : Int) : Bool :=
  speakeasyTotpVerify secret token step 2

/-- The JS regex `^\d\x7b6\x7d$` used by the verify-initial route: exactly six
ASCII digits. -/
def isSixDigitCode (code : String) : Bool :=
  decide (code.length = 6) && code.data.all Char.isDigit

/-! ## Token issuer (src: backend/src/utils/jwt.js) -/

/-- Model of a signed JWT: payload `userId`, issue time, expiry, and the
signing key standing in for the signature.  Two `jwt.sign` calls with the
same payload, same second and same key yield the same token string, which
this value-level model reflects. -/
structure Jwt where
  userId : Nat
  iat : Int
  exp : Int
  key : String
deriving DecidableEq, Repr

/-- `config.jwtExpiration = 15m`, in seconds. -/
def accessTokenTtl : Int := 15 * 60

/-- `config.jwtRefreshExpiration = 7d`, in seconds. -/
def refreshTokenTtl : Int := 7 * 24 * 60 * 60

/-- Translation of `generateAccessToken` (jwt.js). -/
def generateAccessToken (userId : Nat) (now : Int) (key : String) : Jwt :=
  { userId := userId, iat := now, exp := now + accessTokenTtl, key := key }

/-- Translation of `generateRefreshToken` (jwt.js). -/
def generateRefreshToken (userId : Nat) (now : Int) (key : String) : Jwt :=
  { userId := userId, iat := now, exp := now + refreshTokenTtl, key := key }

/-- Translation of `verifyRefreshToken` (jwt.js): signature check and
cryptographic expiry check; returns the decoded payload or `none`. -/
def verifyRefreshToken (t : Jwt) (key : String) (now : Int) : Option Nat :=
  if t.key = key ∧ now < t.exp then some t.userId else none

/-! ## Data model (src: backend/src/database/init.js) -/

/-- A row of the `users` table. -/
structure User where
  id : Nat
  username : String
  email : String
  password_hash : String
  two_factor_secret : Option String
  two_factor_enabled : Bool
  is_admin : Bool
deriving DecidableEq, Repr

/-- A row of the `sessions` table. -/
structure Session where
  id : Nat
  user_id : Nat
  device_id : String
  refresh_token : Jwt
  expires_at : Int
deriving DecidableEq, Repr

/-- The SQLite database state used by the authentication core. -/
structure DB where
  users : List User
  sessions : List Session
  nextUserId : Nat
  nextSessionId : Nat
deriving DecidableEq, Repr

/-- The empty database created by `init.js` on first start. -/
def emptyDB : DB :=
  { users := [], sessions := [], nextUserId := 1, nextSessionId := 1 }

/-! ## Auth orchestrator (src: backend/src/services/authService.js)

Each operation returns the post-state together with an `Except`; the state
component is unchanged exactly on the paths where the JavaScript performs no
database write. -/

/-- Translation of `hasAdmin` (authService.js, lines 19-31):
`SELECT COUNT(*) FROM users WHERE is_admin = 1` compared with 0. -/
def hasAdmin (db : DB) : Bool :=
  db.users.any (fun u => u.is_admin)

/-- Number of user rows with the admin flag set. -/
def adminCount (db : DB) : Nat :=
  db.users.countP (fun u => u.is_admin)

/-- Result object of a successful registration (authService.js, lines 73-79). -/
structure RegisterOut where
  id : Nat
  username : String
  email : String
  twoFactorEnabled : Bool
  isAdmin : Bool
deriving DecidableEq, Repr

/-- The UNIQUE constraints on `users.username` and `users.email`: the insert
fails when some existing row shares either value. -/
def uniqueViolation (db : DB) (username email : String) : Bool :=
  db.users.any (fun u => decide (u.username = username) || decide (u.email = email))

/-- Translation of `registerUser` (authService.js, lines 41-84): validate the
password, read the admin-existence flag, hash, and insert; a UNIQUE
constraint failure surfaces as the generic conflict error. -/
def registerUser (db : DB) (username email password : String) :
    DB × Except String RegisterOut :=
  match validatePassword password with
  | some e => (db, .error e)
  | none =>
    let isAdmin := !hasAdmin db
    if uniqueViolation db username email then
      (db, .error "Username or email already exists")
    else
      let u : User :=
        { id := db.nextUserId, username := username, email := email,
          password_hash := hashPassword password,
          two_factor_secret := none, two_factor_enabled := false,
          is_admin := isAdmin }
      ({ db with users := db.users ++ [u], nextUserId := db.nextUserId + 1 },
       .ok { id := u.id, username := username, email := email,
             twoFactorEnabled := false, isAdmin := isAdmin })

/-- Result object of a successful login (authService.js, lines 158-168). -/
structure LoginOut where
  userId : Nat
  username : String
  email : String
  twoFactorEnabled : Bool
  isAdmin : Bool
  accessToken : Jwt
  refreshToken : Jwt
deriving DecidableEq, Repr

/-- The user-lookup query of `loginUser`:
`SELECT * FROM users WHERE username = ? OR email = ?` (first row). -/
def findUserByName (db : DB) (username : String) : Option User :=
  db.users.find? (fun u => decide (u.username = username) || decide (u.email = username))

/-- Translation of `loginUser` (authService.js, lines 95-174).  `now` is the
server clock in seconds; the TOTP step is the 30-second step derived from
it.  `twoFactorCode = none` models an absent body field; the JS falsy check
also treats an empty string as absent. -/
def loginUser (db : DB) (username password : String) (twoFactorCode : Option String)
    (deviceId : String) (now : Int) (accessKey refreshKey : String) :
    DB × Except String LoginOut :=
  match findUserByName db username with
  | none => (db, .error "Invalid username or password")
  | some user =>
    if !verifyPassword password user.password_hash then
      (db, .error "Invalid username or password")
    else if user.two_factor_enabled then
      let code := twoFactorCode.getD ""
      if code.isEmpty then
        (db, .error "2FA code required")
      else if !verifyToken (user.two_factor_secret.getD "") code (now / 30) then
        (db, .error "Invalid 2FA code")
      else
        let accessToken := generateAccessToken user.id now accessKey
        let refreshToken := generateRefreshToken user.id now refreshKey
        let s : Session :=
          { id := db.nextSessionId, user_id := user.id, device_id := deviceId,
            refresh_token := refreshToken, expires_at := now + refreshTokenTtl }
        ({ db with sessions := db.sessions ++ [s], nextSessionId := db.nextSessionId + 1 },
         .ok { userId := user.id, username := user.username, email := user.email,
               twoFactorEnabled := user.two_factor_enabled, isAdmin := user.is_admin,
               accessToken := accessToken, refreshToken := refreshToken })
    else
      (db, .error "2FA must be enabled. Please complete 2FA setup.")

/-- Translation of `setup2FA` (authService.js, lines 182-216): look the user
up by id, generate a fresh secret (`freshSecret` models the random output of
`generateSecret`), and store it unconditionally via
`UPDATE users SET two_factor_secret = ? WHERE id = ?`.  The QR code data URL
is derived from the secret and returned alongside it. -/
def setup2FA (db : DB) (userId : Nat) (freshSecret : String) :
    DB × Except String (String × String) :=
  match db.users.find? (fun u => decide (u.id = userId)) with
  | none => (db, .error "User not found")
  | some user =>
    ({ db with users := db.users.map (fun u =>
         if u.id = userId then { u with two_factor_secret := some freshSecret } else u) },
     .ok (freshSecret, "data:image/png;qr:" ++ user.username ++ ":" ++ freshSecret))

/-- Translation of `verifyAndEnable2FA` (authService.js, lines 225-264). -/
def verifyAndEnable2FA (db : DB) (userId : Nat) (code : String) (now : Int) :
    DB × Except String Bool :=
  match db.users.find? (fun u => decide (u.id = userId)) with
  | none => (db, .error "2FA secret not found. Please setup 2FA first.")
  | some user =>
    match user.two_factor_secret with
    | none => (db, .error "2FA secret not found. Please setup 2FA first.")
    | some secret =>
      if !verifyToken secret code (now / 30) then
        (db, .error "Invalid 2FA code")
      else
        ({ db with users := db.users.map (fun u =>
             if u.id = userId then { u with two_factor_enabled := true } else u) },
         .ok true)

/-- The session-lookup predicate of `refreshAccessToken`:
`refresh_token = ? AND device_id = ? AND expires_at > datetime("now")`. -/
def sessionMatches (t : Jwt) (d : String) (now : Int) (s : Session) : Bool :=
  decide (s.refresh_token = t) && decide (s.device_id = d) && decide (now < s.expires_at)

/-- Translation of `refreshAccessToken` (authService.js, lines 273-324):
cryptographic verification first, then the ledger lookup requiring the exact
token, the exact device id and an unexpired row; on success the matched row
is rotated in place (`UPDATE sessions SET refresh_token = ?, expires_at = ?
WHERE id = ?`). -/
def refreshAccessToken (db : DB) (t : Jwt) (deviceId : String) (now : Int)
    (accessKey refreshKey : String) : DB × Except String (Jwt × Jwt) :=
  match verifyRefreshToken t refreshKey now with
  | none => (db, .error "Invalid refresh token")
  | some _ =>
    match db.sessions.find? (sessionMatches t deviceId now) with
    | none => (db, .error "Invalid or expired refresh token")
    | some s =>
      let newAccessToken := generateAccessToken s.user_id now accessKey
      let newRefreshToken := generateRefreshToken s.user_id now refreshKey
      ({ db with sessions := db.sessions.map (fun x =>
           if x.id = s.id then
             { x with refresh_token := newRefreshToken, expires_at := now + refreshTokenTtl }
           else x) },
       .ok (newAccessToken, newRefreshToken))

/-- Translation of `logout` (authService.js, lines 332-348). -/
def logout (db : DB) (t : Jwt) (deviceId : String) : DB :=
  { db with sessions := db.sessions.filter (fun s =>
      !(decide (s.refresh_token = t) && decide (s.device_id = deviceId))) }

/-! ## Pre-auth 2FA enrollment variants

The routes `/2fa/setup-initial` and `/2fa/verify-initial`
(routes/auth.js) call `authService.setup2FAInitial` and
`authService.verifyAndEnable2FAInitial`, but the authentication service
source exports neither (its `module.exports` lists only the six functions
above), so the bodies of these two operations are not part of the source
tree.  They are modelled from the spec below. -/

/-- Modelled from the spec: `setup2FAInitial` is absent from the
authentication service source (only its caller in routes/auth.js and the
service's export list are present).  Per the spec's pre-auth enrollment
variant: re-verify username+password as the authentication proof, refuse to
run for a user whose TOTP is already enabled, otherwise generate and store
a TOTP secret while leaving the enabled flag false.  `freshSecret` models
the random secret. -/
def setup2FAInitial (db : DB) (username password : String) (freshSecret : String) :
    DB × Except String (String × String) :=
  match db.users.find? (fun u => decide (u.username = username)) with
  | none => (db, .error "Invalid username or password")
  | some user =>
    if !verifyPassword password user.password_hash then
      (db, .error "Invalid username or password")
    else if user.two_factor_enabled then
      (db, .error "2FA is already enabled")
    else
      ({ db with users := db.users.map (fun u =>
           if u.id = user.id then { u with two_factor_secret := some freshSecret } else u) },
       .ok (freshSecret, "data:image/png;qr:" ++ user.username ++ ":" ++ freshSecret))

/-- Modelled from the spec: `verifyAndEnable2FAInitial` is absent from the
authentication service source (only its caller in routes/auth.js is
present).  Per the spec's pre-auth confirmation variant: re-verify the
password, verify the stored-but-unconfirmed TOTP secret against the code,
then flip the enabled flag; a wrong code never mutates state. -/
def verifyAndEnable2FAInitial (db : DB) (username password code : String) (now : Int) :
    DB × Except String Bool :=
  match db.users.find? (fun u => decide (u.username = username)) with
  | none => (db, .error "Invalid username or password")
  | some user =>
    if !verifyPassword password user.password_hash then
      (db, .error "Invalid username or password")
    else
      match user.two_factor_secret with
      | none => (db, .error "2FA secret not found. Please setup 2FA first.")
      | some secret =>
        if !verifyToken secret code (now / 30) then
          (db, .error "Invalid 2FA code")
        else
          ({ db with users := db.users.map (fun u =>
               if u.id = user.id then { u with two_factor_enabled := true } else u) },
           .ok true)

/-- Translation of the `/2fa/verify-initial` route handler
(routes/auth.js, lines 235-257): presence check, the `^\d\x7b6\x7d$` format
check, then the service call.  The empty string models an absent body
field (JS falsy check). -/
def verifyInitialRoute (db : DB) (username password code : String) (now : Int) :
    DB × Except String Bool :=
  if username.isEmpty || password.isEmpty || code.isEmpty then
    (db, .error "Username, password, and 2FA code are required")
  else if !isSixDigitCode code then
    (db, .error "2FA code must be 6 digits")
  else
    verifyAndEnable2FAInitial db username password code now

/-! ## TOTP computation cost instrumentation

`totpProbes` counts how many TOTP digest values `speakeasy.totp.verify`
computes for a given call: zero when its own pre-checks reject the token
(wrong length, or `parseInt` yields `NaN`) before the window loop, and
otherwise one digest per loop iteration up to the first parsed-value
match.  The `...TotpCost` functions mirror the control flow of the
corresponding operation and return the number of TOTP digest computations
the operation performs, which is what "rejected without computing TOTP"
is about. -/

/-- Number of digests computed while scanning the given steps for a
parsed-value match (stops at the first hit). -/
def totpProbesGo (secret : String) (n : Int) : List Int → Nat
  | [] => 0
  | s :: rest =>
    if jsParseInt (totpValue secret s) = some n then 1
    else totpProbesGo secret n rest + 1

/-- TOTP digest computations performed by one `verifyToken` call:
speakeasy's length and `NaN` pre-checks reject before any digest is
computed. -/
def totpProbes (secret token : String) (step : Int) : Nat :=
  if token.length = 6 then
    match jsParseInt token with
    | none => 0
    | some n => totpProbesGo secret n ((windowOffsets 2).map (fun d => step + d))
  else 0

/-- TOTP digest computations performed by one `loginUser` call. -/
def loginTotpCost (db : DB) (username password : String)
    (twoFactorCode : Option String) (now : Int) : Nat :=
  match findUserByName db username with
  | none => 0
  | some user =>
    if !verifyPassword password user.password_hash then 0
    else if user.two_factor_enabled then
      let code := twoFactorCode.getD ""
      if code.isEmpty then 0
      else totpProbes (user.two_factor_secret.getD "") code (now / 30)
    else 0

/-- TOTP digest computations performed by one `verifyAndEnable2FA` call
(the authenticated confirm path; its route precheck is only a presence
check). -/
def verifyAndEnable2FATotpCost (db : DB) (userId : Nat) (code : String) (now : Int) : Nat :=
  match db.users.find? (fun u => decide (u.id = userId)) with
  | none => 0
  | some user =>
    match user.two_factor_secret with
    | none => 0
    | some secret => totpProbes secret code (now / 30)

/-- TOTP digest computations performed by one `/2fa/verify-initial` route
call. -/
def verifyInitialRouteTotpCost (db : DB) (username password code : String) (now : Int) : Nat :=
  if username.isEmpty || password.isEmpty || code.isEmpty then 0
  else if !isSixDigitCode code then 0
  else
    match db.users.find? (fun u => decide (u.username = username)) with
    | none => 0
    | some user =>
      if !verifyPassword password user.password_hash then 0
      else
        match user.two_factor_secret with
        | none => 0
        | some secret => totpProbes secret code (now / 30)

/-! ## Secret store (src: backend/src/utils/secrets.js) -/

/-- The three process-wide secrets. -/
structure SecretsBundle where
  jwtSecret : String
  jwtRefreshSecret : String
  encryptionKey : String
deriving DecidableEq, Repr

/-- The three relevant environment variables; `none` models an unset
variable. -/
structure EnvVars where
  jwtSecret : Option String
  jwtRefreshSecret : Option String
  encryptionKey : Option String
deriving DecidableEq, Repr

/-- JS truthiness of an optional string: set and nonempty. -/
def truthyOpt (o : Option String) : Bool :=
  match o with
  | none => false
  | some s => !s.isEmpty

/-- One step of the `key=value` parsing loop of `loadSecretsFromFile`
(secrets.js, lines 49-57): skip blank and comment lines; a line with no `=`
or with nothing before the first `=` is skipped; otherwise the key is the
trimmed text before the first `=` and the value is the trimmed remainder. -/
def parseSecretsLine (acc : List (String × String)) (line : String) :
    List (String × String) :=
  let t := line.trim
  if t.isEmpty || t.startsWith "#" then acc
  else
    match t.splitOn "=" with
    | [] => acc
    | key :: valueParts =>
      if !key.isEmpty && !valueParts.isEmpty then
        acc ++ [(key.trim, (String.intercalate "=" valueParts).trim)]
      else acc

/-- Lookup in the parsed map; a later assignment to the same key wins, as in
a JS object. -/
def lookupKey (m : List (String × String)) (k : String) : Option String :=
  (m.reverse.find? (fun kv => decide (kv.1 = k))).map (fun kv => kv.2)

/-- Translation of `loadSecretsFromFile` (secrets.js, lines 39-64): `none`
when the file is absent or yields no entries. -/
def loadSecretsFromFile (file : Option String) : Option (List (String × String)) :=
  match file with
  | none => none
  | some content =>
    let secrets := (content.splitOn "\n").foldl parseSecretsLine []
    if secrets.isEmpty then none else some secrets

/-- A write of the secrets file: its content and its permission mode. -/
structure FileWrite where
  content : String
  mode : Nat
deriving DecidableEq, Repr

/-- Translation of `saveSecretsToFile` (secrets.js, lines 71-98):
`fs.writeFileSync(SECRETS_FILE, lines.join("\n"), \x7bmode: 0o600\x7d)`.
`ts` models the generation timestamp string. -/
def saveSecretsToFile (s : SecretsBundle) (ts : String) : FileWrite :=
  { content := String.intercalate "\n"
      ["# Auto-generated secrets file",
       "# DO NOT EDIT MANUALLY",
       "# Backup this file securely!",
       "#",
       "JWT_SECRET=" ++ s.jwtSecret,
       "JWT_REFRESH_SECRET=" ++ s.jwtRefreshSecret,
       "ENCRYPTION_KEY=" ++ s.encryptionKey,
       "",
       "# Generated on: " ++ ts],
    mode := 0o600 }

/-- Translation of `getOrGenerateSecrets` (secrets.js, lines 110-150).
`file` is the current content of `/data/secrets.env` (if present);
`freshA freshB freshC` model the outputs of the three `generateSecret`
calls.  The second component records the file write performed before
returning, if any. -/
def getOrGenerateSecrets (env : EnvVars) (file : Option String)
    (freshA freshB freshC : String) (ts : String) :
    SecretsBundle × Option FileWrite :=
  if truthyOpt env.jwtSecret && truthyOpt env.jwtRefreshSecret &&
      truthyOpt env.encryptionKey then
    ({ jwtSecret := env.jwtSecret.getD "", jwtRefreshSecret := env.jwtRefreshSecret.getD "",
       encryptionKey := env.encryptionKey.getD "" }, none)
  else
    match loadSecretsFromFile file with
    | some m =>
      if truthyOpt (lookupKey m "JWT_SECRET") && truthyOpt (lookupKey m "JWT_REFRESH_SECRET") &&
          truthyOpt (lookupKey m "ENCRYPTION_KEY") then
        ({ jwtSecret := (lookupKey m "JWT_SECRET").getD "",
           jwtRefreshSecret := (lookupKey m "JWT_REFRESH_SECRET").getD "",
           encryptionKey := (lookupKey m "ENCRYPTION_KEY").getD "" }, none)
      else
        let s : SecretsBundle :=
          { jwtSecret := freshA, jwtRefreshSecret := freshB, encryptionKey := freshC }
        (s, some (saveSecretsToFile s ts))
    | none =>
      let s : SecretsBundle :=
        { jwtSecret := freshA, jwtRefreshSecret := freshB, encryptionKey := freshC }
      (s, some (saveSecretsToFile s ts))

/-! ## Registration sequences (for the admin-bootstrap invariant) -/

/-- A registration request. -/
structure RegReq where
  username : String
  email : String
  password : String
deriving DecidableEq, Repr

/-- Run a sequence of registrations, collecting the `isAdmin` component of
each successful response in order. -/
def runRegs (db : DB) : List RegReq → DB × List Bool
  | [] => (db, [])
  | r :: rest =>
    match registerUser db r.username r.email r.password with
    | (db1, .ok out) =>
      let (dbf, outs) := runRegs db1 rest
      (dbf, out.isAdmin :: outs)
    | (db1, .error _) => runRegs db1 rest

/-- The shape required of the successful `isAdmin` responses: the first is
`true` and every later one is `false`. -/
def firstTrueRestFalse : List Bool → Prop
  | [] => True
  | b :: rest => b = true ∧ ∀ x ∈ rest, x = false

/-! ## Concrete fixtures used by witnesses and counterexamples -/

/-- A password satisfying the full policy (length 24, digit, letter,
symbol). -/
def alicePassword : String := "abcdefghijklmnopqrst123!"

/-- The user row created by registering alice on a fresh database. -/
def regAliceUser : User :=
  { id := 1, username := "alice", email := "a@x.io",
    password_hash := hashPassword alicePassword,
    two_factor_secret := none, two_factor_enabled := false, is_admin := true }

/-- The database after registering alice on a fresh database. -/
def regAliceDB : DB :=
  { users := [regAliceUser], sessions := [], nextUserId := 2, nextSessionId := 1 }

/-- The response of registering alice on a fresh database. -/
def regAliceOut : RegisterOut :=
  { id := 1, username := "alice", email := "a@x.io",
    twoFactorEnabled := false, isAdmin := true }

/-- A registered user who has not yet enabled TOTP. -/
def noTotpUser : User :=
  { id := 1, username := "carol", email := "c@x.io",
    password_hash := hashPassword "carolpw",
    two_factor_secret := none, two_factor_enabled := false, is_admin := false }

/-- A database holding only `noTotpUser`. -/
def noTotpDB : DB :=
  { users := [noTotpUser], sessions := [], nextUserId := 2, nextSessionId := 1 }

/-- The TOTP secret of the fully enrolled user `totpUser`. -/
def danaSecret : String := "S3CR3TBASE32"

/-- A fully enrolled user (TOTP enabled). -/
def totpUser : User :=
  { id := 2, username := "dana", email := "d@x.io",
    password_hash := hashPassword "danapw",
    two_factor_secret := some danaSecret, two_factor_enabled := true, is_admin := false }

/-- A database holding only `totpUser`. -/
def totpDB : DB :=
  { users := [totpUser], sessions := [], nextUserId := 3, nextSessionId := 1 }

/-- Another fully enrolled user, used for the enrollment-refusal and
overwrite claims. -/
def enabledUser : User :=
  { id := 3, username := "erin", email := "e@x.io",
    password_hash := hashPassword "erinpw",
    two_factor_secret := some "OLDSECRET", two_factor_enabled := true, is_admin := false }

/-- A database holding only `enabledUser`. -/
def enabledDB : DB :=
  { users := [enabledUser], sessions := [], nextUserId := 4, nextSessionId := 1 }

/-- A refresh token issued at time 0 for user 1 with key `rk`. -/
def oldRefreshTok : Jwt :=
  { userId := 1, iat := 0, exp := refreshTokenTtl, key := "rk" }

/-- A ledger holding one active session for `oldRefreshTok` on device
`d1`. -/
def sessDB : DB :=
  { users := [], nextUserId := 1, nextSessionId := 2,
    sessions := [{ id := 1, user_id := 1, device_id := "d1",
                   refresh_token := oldRefreshTok, expires_at := 2000 }] }

/-- `sessDB` after a successful refresh at time 1000. -/
def sessDBRotated : DB :=
  { users := [], nextUserId := 1, nextSessionId := 2,
    sessions := [{ id := 1, user_id := 1, device_id := "d1",
                   refresh_token := generateRefreshToken 1 1000 "rk",
                   expires_at := 1000 + refreshTokenTtl }] }

/-- The token pair issued by that refresh. -/
def rotatedPair : Jwt × Jwt :=
  (generateAccessToken 1 1000 "ak", generateRefreshToken 1 1000 "rk")

/-- A time (in seconds; step 884870) at which the current-step digest
value for `danaSecret` is 12 — the `parseInt` value of the malformed code
`12a456`. -/
def acceptedNow : Int := 26546100

/-- The successful login response the malformed code `12a456` obtains at
`acceptedNow`. -/
def malformedLoginOut : LoginOut :=
  { userId := 2, username := "dana", email := "d@x.io", twoFactorEnabled := true,
    isAdmin := false,
    accessToken := generateAccessToken 2 acceptedNow "ak",
    refreshToken := generateRefreshToken 2 acceptedNow "rk" }

/-! ## Derived views of the secret store resolution -/

/-- All three operator-configuration values are set and nonempty (the JS
truthiness test of `getOrGenerateSecrets`). -/
def envAllTruthy (env : EnvVars) : Bool :=
  truthyOpt env.jwtSecret && truthyOpt env.jwtRefreshSecret && truthyOpt env.encryptionKey

/-- The persisted file parses and provides all three secrets (the JS
truthiness test on the loaded object). -/
def fileAllTruthy (file : Option String) : Bool :=
  match loadSecretsFromFile file with
  | none => false
  | some m =>
    truthyOpt (lookupKey m "JWT_SECRET") && truthyOpt (lookupKey m "JWT_REFRESH_SECRET") &&
      truthyOpt (lookupKey m "ENCRYPTION_KEY")

/-- The bundle read verbatim from the persisted file. -/
def fileBundle (file : Option String) : SecretsBundle :=
  match loadSecretsFromFile file with
  | none => { jwtSecret := "", jwtRefreshSecret := "", encryptionKey := "" }
  | some m =>
    { jwtSecret := (lookupKey m "JWT_SECRET").getD "",
      jwtRefreshSecret := (lookupKey m "JWT_REFRESH_SECRET").getD "",
      encryptionKey := (lookupKey m "ENCRYPTION_KEY").getD "" }

/-- An operator configuration providing all three secrets. -/
def envAllExample : EnvVars :=
  { jwtSecret := some "opkey1", jwtRefreshSecret := some "opkey2",
    encryptionKey := some "opkey3" }

/-! ## Lemmas about registration -/

theorem adminCount_eq_zero_iff (db : DB) : adminCount db = 0 ↔ hasAdmin db = false := by
  simp [adminCount, hasAdmin, List.countP_eq_zero, List.any_eq_true]

theorem registerUser_ok_spec (db : DB) (u e p : String) (db' : DB) (out : RegisterOut)
    (h : registerUser db u e p = (db', .ok out)) :
    out.isAdmin = !hasAdmin db ∧
    db'.users = db.users ++
      [{ id := db.nextUserId, username := u, email := e,
         password_hash := hashPassword p, two_factor_secret := none,
         two_factor_enabled := false, is_admin := !hasAdmin db }] ∧
    db'.sessions = db.sessions := by
  unfold registerUser at h
  split at h
  · cases h
  · split at h
    · cases h
    · obtain ⟨h1, h2⟩ := Prod.mk.injEq .. ▸ h
      subst h1
      cases h2
      exact ⟨rfl, rfl, rfl⟩

theorem registerUser_error_state (db : DB) (u e p : String) (db' : DB) (msg : String)
    (h : registerUser db u e p = (db', .error msg)) : db' = db := by
  unfold registerUser at h
  split at h
  · cases h; rfl
  · split at h
    · cases h; rfl
    · cases h

theorem hasAdmin_after_ok (db : DB) (u e p : String) (db' : DB) (out : RegisterOut)
    (h : registerUser db u e p = (db', .ok out)) : hasAdmin db' = true := by
  obtain ⟨-, h2, -⟩ := registerUser_ok_spec db u e p db' out h
  simp only [hasAdmin, h2, List.any_append, List.any_cons, List.any_nil]
  cases hA : db.users.any (fun x => x.is_admin) <;> simp [hasAdmin, hA]

theorem adminCount_after_ok (db : DB) (u e p : String) (db' : DB) (out : RegisterOut)
    (h : registerUser db u e p = (db', .ok out)) :
    adminCount db' = if hasAdmin db then adminCount db else adminCount db + 1 := by
  obtain ⟨-, h2, -⟩ := registerUser_ok_spec db u e p db' out h
  simp only [adminCount, h2, List.countP_append, List.countP_cons, List.countP_nil]
  cases hA : hasAdmin db <;> simp [hA]

theorem runRegs_of_hasAdmin (reqs : List RegReq) :
    ∀ db : DB, hasAdmin db = true →
      (∀ x ∈ (runRegs db reqs).2, x = false) ∧
      adminCount (runRegs db reqs).1 = adminCount db := by
  induction reqs with
  | nil =>
    intro db _
    refine ⟨?_, rfl⟩
    intro x hx
    simp [runRegs] at hx
  | cons r rest ih =>
    intro db hA
    rcases hreg : registerUser db r.username r.email r.password with ⟨db1, res⟩
    cases res with
    | error msg =>
      have hdb : db1 = db := registerUser_error_state db _ _ _ db1 msg hreg
      subst hdb
      simpa [runRegs, hreg] using ih _ hA
    | ok out =>
      have hflag : out.isAdmin = !hasAdmin db := (registerUser_ok_spec db _ _ _ db1 out hreg).1
      have hA1 : hasAdmin db1 = true := hasAdmin_after_ok db _ _ _ db1 out hreg
      have hc1 : adminCount db1 = adminCount db := by
        have := adminCount_after_ok db _ _ _ db1 out hreg
        simpa [hA] using this
      obtain ⟨hrest, hcnt⟩ := ih db1 hA1
      refine ⟨?_, ?_⟩
      · intro x hx
        simp only [runRegs, hreg, List.mem_cons] at hx
        rcases hx with hx | hx
        · subst hx; simp [hflag, hA]
        · exact hrest x (by simpa [runRegs, hreg] using hx)
      · simp only [runRegs, hreg]
        rw [← hc1]
        simpa using hcnt

theorem runRegs_of_noAdmin (reqs : List RegReq) :
    ∀ db : DB, hasAdmin db = false →
      firstTrueRestFalse (runRegs db reqs).2 ∧
      adminCount (runRegs db reqs).1 ≤ 1 := by
  induction reqs with
  | nil =>
    intro db h0
    exact ⟨trivial, by simp [runRegs, (adminCount_eq_zero_iff db).2 h0]⟩
  | cons r rest ih =>
    intro db h0
    rcases hreg : registerUser db r.username r.email r.password with ⟨db1, res⟩
    cases res with
    | error msg =>
      have hdb : db1 = db := registerUser_error_state db _ _ _ db1 msg hreg
      subst hdb
      simpa [runRegs, hreg] using ih _ h0
    | ok out =>
      have hflag : out.isAdmin = !hasAdmin db := (registerUser_ok_spec db _ _ _ db1 out hreg).1
      have hA1 : hasAdmin db1 = true := hasAdmin_after_ok db _ _ _ db1 out hreg
      have hc1 : adminCount db1 = adminCount db + 1 := by
        have := adminCount_after_ok db _ _ _ db1 out hreg
        simpa [h0] using this
      have hc0 : adminCount db = 0 := (adminCount_eq_zero_iff db).2 h0
      obtain ⟨hrest, hcnt⟩ := runRegs_of_hasAdmin rest db1 hA1
      refine ⟨?_, ?_⟩
      · simp only [runRegs, hreg]
        exact ⟨by simp [hflag, h0], fun x hx => hrest x hx⟩
      · simp only [runRegs, hreg]
        calc adminCount (runRegs db1 rest).1 = adminCount db1 := hcnt
          _ = 1 := by rw [hc1, hc0]
          _ ≤ 1 := le_refl 1

/-- C1: for every sequence of registrations, a user's admin flag is set to
true iff no admin row exists at the instant of insertion; hence from a
fresh database the first successful registration, and only the first,
returns `isAdmin = true`, every later one returns `false`, and at most one
user row ever has the admin flag set. -/
theorem registration_admin_bootstrap :
    (∀ (db db' : DB) (u e p : String) (out : RegisterOut),
        registerUser db u e p = (db', .ok out) →
        (out.isAdmin = true ↔ hasAdmin db = false)) ∧
    (∀ reqs : List RegReq,
        firstTrueRestFalse (runRegs emptyDB reqs).2 ∧
        adminCount (runRegs emptyDB reqs).1 ≤ 1) := by
  constructor
  · intro db db' u e p out h
    have hflag : out.isAdmin = !hasAdmin db := (registerUser_ok_spec db u e p db' out h).1
    rw [hflag]
    cases hA : hasAdmin db <;> simp
  · intro reqs
    exact runRegs_of_noAdmin reqs emptyDB rfl

/-- Concrete instantiation of `registration_admin_bootstrap`: the very
first registration on a fresh database reports `isAdmin = true`. -/
theorem registration_admin_bootstrap_witness :
    regAliceOut.isAdmin = true ↔ hasAdmin emptyDB = false :=
  registration_admin_bootstrap.1 emptyDB regAliceDB
    "alice" "a@x.io" alicePassword regAliceOut (by decide)

/-! ## TOTP window lemmas -/

theorem digitChar_facts (k : Nat) :
    (digitChar k).isDigit = true ∧ (digitChar k).toNat = 48 + k % 10 ∧
    digitChar k ≠ ' ' ∧ digitChar k ≠ '\t' ∧ digitChar k ≠ '\n' ∧
    digitChar k ≠ '\r' ∧ digitChar k ≠ '-' ∧ digitChar k ≠ '+' := by
  unfold digitChar
  have h : k % 10 < 10 := Nat.mod_lt _ (by omega)
  set m := k % 10 with hm
  interval_cases m <;> decide

theorem totpNat_lt (secret : String) (step : Int) : totpNat secret step < 1000000 := by
  unfold totpNat
  have h1 : 0 ≤ ((secretMix secret : Int) + step * 1009).emod 1000000 :=
    Int.emod_nonneg _ (by omega)
  have h2 : ((secretMix secret : Int) + step * 1009).emod 1000000 < 1000000 :=
    Int.emod_lt_of_pos _ (by omega)
  omega

theorem pad6_length (n : Nat) : (pad6 n).length = 6 := rfl

theorem jsParseInt_digits (c : Char) (rest : List Char)
    (hall : ∀ x ∈ c :: rest, x.isDigit = true) :
    jsParseInt (String.mk (c :: rest)) = some ((digitsToNat (c :: rest) : Nat) : Int) := by
  have hc : c.isDigit = true := hall c (List.mem_cons_self c rest)
  have h1 : c ≠ ' ' := fun hEq => by rw [hEq] at hc; exact absurd hc (by decide)
  have h2 : c ≠ '\t' := fun hEq => by rw [hEq] at hc; exact absurd hc (by decide)
  have h3 : c ≠ '\n' := fun hEq => by rw [hEq] at hc; exact absurd hc (by decide)
  have h4 : c ≠ '\r' := fun hEq => by rw [hEq] at hc; exact absurd hc (by decide)
  have h5 : c ≠ '-' := fun hEq => by rw [hEq] at hc; exact absurd hc (by decide)
  have h6 : c ≠ '+' := fun hEq => by rw [hEq] at hc; exact absurd hc (by decide)
  have hdrop : List.dropWhile (fun c =>
      (c = ' ') || (c = '\t') || (c = '\n') || (c = '\r')) (c :: rest) = c :: rest := by
    simp [List.dropWhile_cons, h1, h2, h3, h4]
  unfold jsParseInt
  rw [show (String.mk (c :: rest)).data = c :: rest from rfl]
  rw [hdrop]
  simp only [List.isEmpty_cons, List.headD_cons, List.tail_cons]
  rw [if_neg (by simp), if_neg h5, if_neg h6]
  unfold parseDigits
  rw [List.takeWhile_eq_self_iff.mpr hall]
  simp

theorem jsParseInt_pad6 (n : Nat) (h : n < 1000000) :
    jsParseInt (pad6 n) = some ((n : Nat) : Int) := by
  have hall : ∀ x ∈ [digitChar (n / 100000), digitChar (n / 10000), digitChar (n / 1000),
      digitChar (n / 100), digitChar (n / 10), digitChar n], x.isDigit = true := by
    intro x hx
    simp only [List.mem_cons, List.not_mem_nil, or_false] at hx
    rcases hx with rfl | rfl | rfl | rfl | rfl | rfl <;> exact (digitChar_facts _).1
  have hmain := jsParseInt_digits (digitChar (n / 100000))
    [digitChar (n / 10000), digitChar (n / 1000), digitChar (n / 100),
     digitChar (n / 10), digitChar n] hall
  have hd : digitsToNat [digitChar (n / 100000), digitChar (n / 10000), digitChar (n / 1000),
      digitChar (n / 100), digitChar (n / 10), digitChar n] = n := by
    unfold digitsToNat
    simp only [List.foldl_cons, List.foldl_nil, (digitChar_facts (n / 100000)).2.1,
      (digitChar_facts (n / 10000)).2.1, (digitChar_facts (n / 1000)).2.1,
      (digitChar_facts (n / 100)).2.1, (digitChar_facts (n / 10)).2.1,
      (digitChar_facts n).2.1]
    omega
  calc jsParseInt (pad6 n)
      = some ((digitsToNat [digitChar (n / 100000), digitChar (n / 10000),
          digitChar (n / 1000), digitChar (n / 100), digitChar (n / 10),
          digitChar n] : Nat) : Int) := hmain
    _ = some ((n : Nat) : Int) := by rw [hd]

theorem jsParseInt_totpValue (secret : String) (step : Int) :
    jsParseInt (totpValue secret step) = some ((totpNat secret step : Nat) : Int) :=
  jsParseInt_pad6 (totpNat secret step) (totpNat_lt secret step)

theorem verifyToken_eq_true_iff (secret token : String) (step : Int) :
    verifyToken secret token step = true ↔
      token.length = 6 ∧ ∃ n : Int, jsParseInt token = some n ∧
        ∃ d : Int, -2 ≤ d ∧ d ≤ 2 ∧ jsParseInt (totpValue secret (step + d)) = some n := by
  have hw : windowOffsets 2 = [-2, -1, 0, 1, 2] := by decide
  unfold verifyToken speakeasyTotpVerify
  by_cases hlen : token.length = 6
  · rw [if_pos hlen, hw]
    cases hp : jsParseInt token with
    | none => simp [hp]
    | some n =>
      simp only [hp, List.any_cons, List.any_nil, Bool.or_eq_true, decide_eq_true_eq,
        Bool.false_eq_true, or_false, hlen, true_and, Option.some.injEq]
      constructor
      · rintro (h | h | h | h | h)
        · exact ⟨n, rfl, -2, by omega, by omega, h⟩
        · exact ⟨n, rfl, -1, by omega, by omega, h⟩
        · exact ⟨n, rfl, 0, by omega, by omega, h⟩
        · exact ⟨n, rfl, 1, by omega, by omega, h⟩
        · exact ⟨n, rfl, 2, by omega, by omega, h⟩
      · rintro ⟨n2, hn2, d, hd1, hd2, hd3⟩
        subst hn2
        interval_cases d
        · exact Or.inl hd3
        · exact Or.inr (Or.inl hd3)
        · exact Or.inr (Or.inr (Or.inl hd3))
        · exact Or.inr (Or.inr (Or.inr (Or.inl hd3)))
        · exact Or.inr (Or.inr (Or.inr (Or.inr hd3)))
  · rw [if_neg hlen]
    simp [hlen]

/-- C7: `verifyToken` runs the TOTP check with the window tolerance fixed
at 2 steps of 30 seconds: a submitted code equal to the TOTP value at the
current step or at any step within 2 before or after is accepted, and a
code that is the TOTP value only at steps 3 or more away (matching no step
inside the window) is rejected.  The first conjunct characterizes
acceptance exactly: per speakeasy's comparison the token must have length
6 and `parseInt` to the digest value of some step within the window. -/
theorem totp_window_plus_minus_two (secret token : String) (step : Int) :
    (verifyToken secret token step = true ↔
      token.length = 6 ∧ ∃ n : Int, jsParseInt token = some n ∧
        ∃ d : Int, -2 ≤ d ∧ d ≤ 2 ∧ jsParseInt (totpValue secret (step + d)) = some n) ∧
    (∀ d : Int, -2 ≤ d → d ≤ 2 → token = totpValue secret (step + d) →
      verifyToken secret token step = true) ∧
    ((∀ d : Int, -2 ≤ d → d ≤ 2 → token ≠ totpValue secret (step + d)) →
      (∃ e : Int, (e ≤ -3 ∨ 3 ≤ e) ∧ token = totpValue secret (step + e)) →
      verifyToken secret token step = false) := by
  refine ⟨verifyToken_eq_true_iff secret token step, ?_, ?_⟩
  · intro d hd1 hd2 hd3
    rw [verifyToken_eq_true_iff]
    subst hd3
    exact ⟨pad6_length _, ((totpNat secret (step + d) : Nat) : Int),
      jsParseInt_totpValue secret (step + d), d, hd1, hd2,
      jsParseInt_totpValue secret (step + d)⟩
  · rintro hnear ⟨e, he, hval⟩
    by_contra hacc
    rw [Bool.not_eq_false] at hacc
    obtain ⟨hlen, n, hpt, d, hd1, hd2, hpd⟩ := (verifyToken_eq_true_iff secret token step).1 hacc
    have hpt2 : jsParseInt token = some ((totpNat secret (step + e) : Nat) : Int) := by
      rw [hval]
      exact jsParseInt_totpValue secret (step + e)
    rw [hpt2] at hpt
    injection hpt with hpt
    rw [jsParseInt_totpValue secret (step + d)] at hpd
    injection hpd with hpd
    have hvals : totpNat secret (step + d) = totpNat secret (step + e) := by
      have := hpd.trans hpt.symm
      exact_mod_cast this
    apply hnear d hd1 hd2
    rw [hval]
    unfold totpValue
    rw [hvals]

/-- Concrete instantiation of `totp_window_plus_minus_two`: the code that
is the TOTP value one step ahead is accepted at the current step. -/
theorem totp_window_plus_minus_two_witness :
    verifyToken danaSecret (totpValue danaSecret (0 + 1)) 0 = true :=
  (totp_window_plus_minus_two danaSecret (totpValue danaSecret (0 + 1)) 0).2.1 1
    (by decide) (by decide) rfl

/-! ## Password policy -/

/-- C4: for every password shorter than 24 characters, or containing no
digit, no alphabetic character, or no symbol from the defined punctuation
set, registration fails with the validation error reporting the first
failing reason in the check order of the source (a missing/empty password
is reported as required; among the policy checks length is checked first,
then digit, letter, symbol), and no user row is created. -/
theorem weak_password_registration_rejected (db : DB) (u e p : String)
    (h : p.length < passwordMinLength ∨ hasDigit p = false ∨ hasLetter p = false ∨
         hasSpecial p = false) :
    (registerUser db u e p).1 = db ∧
    (registerUser db u e p).2 = .error
      (if p.isEmpty then "Password is required"
       else if p.length < passwordMinLength then "Password must be at least 24 characters long"
       else if !hasDigit p then "Password must contain at least one number"
       else if !hasLetter p then "Password must contain at least one letter"
       else "Password must contain at least one special character") := by
  cases h0 : p.isEmpty with
  | true => constructor <;> simp [registerUser, validatePassword, h0]
  | false =>
    by_cases h1 : p.length < passwordMinLength
    · constructor <;> simp [registerUser, validatePassword, h0, h1]
    · cases h2 : hasDigit p with
      | false => constructor <;> simp [registerUser, validatePassword, h0, h1, h2]
      | true =>
        cases h3 : hasLetter p with
        | false => constructor <;> simp [registerUser, validatePassword, h0, h1, h2, h3]
        | true =>
          cases h4 : hasSpecial p with
          | false =>
            constructor <;> simp [registerUser, validatePassword, h0, h1, h2, h3, h4]
          | true => simp_all

/-- Concrete instantiation of `weak_password_registration_rejected`: the
7-character password is rejected with the length message and the database
is unchanged. -/
theorem weak_password_registration_rejected_witness :
    (registerUser emptyDB "bob" "b@x.io" "short1!").1 = emptyDB ∧
    (registerUser emptyDB "bob" "b@x.io" "short1!").2 = .error
      (if ("short1!" : String).isEmpty then "Password is required"
       else if ("short1!" : String).length < passwordMinLength then
         "Password must be at least 24 characters long"
       else if !hasDigit "short1!" then "Password must contain at least one number"
       else if !hasLetter "short1!" then "Password must contain at least one letter"
       else "Password must contain at least one special character") :=
  weak_password_registration_rejected emptyDB "bob" "b@x.io" "short1!" (Or.inl (by decide))

/-! ## Login and TOTP-enrollment requirement -/

/-- C3 (amended): for every user whose TOTP-enabled flag is false, login
always fails and neither issues tokens nor creates a session row; the
distinct error instructing the client to complete enrollment is returned
exactly when the supplied password is correct, while a wrong password
surfaces the generic invalid-credentials error instead. -/
theorem login_totp_disabled_always_fails (db : DB) (username password : String)
    (code : Option String) (d : String) (now : Int) (ak rk : String) (u : User)
    (hfind : findUserByName db username = some u)
    (hoff : u.two_factor_enabled = false) :
    (loginUser db username password code d now ak rk).1 = db ∧
    (∃ msg, (loginUser db username password code d now ak rk).2 = .error msg) ∧
    (verifyPassword password u.password_hash = true →
      (loginUser db username password code d now ak rk).2 =
        .error "2FA must be enabled. Please complete 2FA setup.") ∧
    (verifyPassword password u.password_hash = false →
      (loginUser db username password code d now ak rk).2 =
        .error "Invalid username or password") := by
  cases hpw : verifyPassword password u.password_hash with
  | true =>
    refine ⟨by simp [loginUser, hfind, hpw, hoff],
      ⟨"2FA must be enabled. Please complete 2FA setup.",
        by simp [loginUser, hfind, hpw, hoff]⟩,
      fun _ => by simp [loginUser, hfind, hpw, hoff],
      fun hcontra => absurd hcontra (by decide)⟩
  | false =>
    refine ⟨by simp [loginUser, hfind, hpw],
      ⟨"Invalid username or password", by simp [loginUser, hfind, hpw]⟩,
      fun hcontra => absurd hcontra (by decide),
      fun _ => by simp [loginUser, hfind, hpw]⟩

/-- Counterexample to C3 as stated: `carol` has TOTP disabled, yet logging
in with a wrong password fails with the generic invalid-credentials
message, not with the distinct complete-enrollment message — so the
enrollment error is not returned "regardless of whether the supplied
password is correct". -/
theorem login_totp_disabled_wrong_password_counterexample :
    (loginUser noTotpDB "carol" "wrongpw" none "d1" 0 "ak" "rk").2 =
      .error "Invalid username or password" ∧
    "Invalid username or password" ≠ "2FA must be enabled. Please complete 2FA setup." :=
  ⟨by decide, by decide⟩

/-- Concrete instantiation of `login_totp_disabled_always_fails`: `carol`
(TOTP disabled) with the correct password receives the enrollment error. -/
theorem login_totp_disabled_always_fails_witness :
    (loginUser noTotpDB "carol" "carolpw" none "d1" 0 "ak" "rk").2 =
      .error "2FA must be enabled. Please complete 2FA setup." :=
  (login_totp_disabled_always_fails noTotpDB "carol" "carolpw" none "d1" 0 "ak" "rk"
    noTotpUser (by decide) (by decide)).2.2.1 (by decide)

/-! ## Login failure message classes -/

/-- C5 (amended): the "no such user" and "wrong password" login failures
surface the identical generic message and are indistinguishable from one
another, but a wrong TOTP code surfaces a different message
(`Invalid 2FA code`), so an observer of the error output can distinguish a
TOTP failure from the two credential failures. -/
theorem login_error_message_classes (db : DB) (username password code d : String)
    (now : Int) (ak rk : String) :
    (findUserByName db username = none →
      (loginUser db username password (some code) d now ak rk).2 =
        .error "Invalid username or password") ∧
    (∀ u : User, findUserByName db username = some u →
      verifyPassword password u.password_hash = false →
      (loginUser db username password (some code) d now ak rk).2 =
        .error "Invalid username or password") ∧
    (∀ u : User, findUserByName db username = some u →
      verifyPassword password u.password_hash = true →
      u.two_factor_enabled = true →
      code.isEmpty = false →
      verifyToken (u.two_factor_secret.getD "") code (now / 30) = false →
      (loginUser db username password (some code) d now ak rk).2 =
        .error "Invalid 2FA code") ∧
    "Invalid 2FA code" ≠ "Invalid username or password" := by
  refine ⟨fun hnone => by simp [loginUser, hnone],
    fun u hfind hpw => by simp [loginUser, hfind, hpw],
    fun u hfind hpw hon hne hbadcode => ?_,
    by decide⟩
  simp [loginUser, hfind, hpw, hon, hne, hbadcode]

/-- Counterexample to C5 as stated: against a ledger containing the
enrolled user `dana`, the three failures "no such user", "wrong password"
and "wrong TOTP code" do not all surface one message class — the TOTP
failure message differs from the credential failure message, so the
observer can tell the TOTP check failed. -/
theorem login_error_messages_distinguishable :
    (loginUser totpDB "ghost" "danapw" (some "000000") "d1" 0 "ak" "rk").2 =
      .error "Invalid username or password" ∧
    (loginUser totpDB "dana" "wrongpw" (some "000000") "d1" 0 "ak" "rk").2 =
      .error "Invalid username or password" ∧
    (loginUser totpDB "dana" "danapw" (some "000000") "d1" 0 "ak" "rk").2 =
      .error "Invalid 2FA code" ∧
    "Invalid 2FA code" ≠ "Invalid username or password" :=
  ⟨by decide, by decide, by decide, by decide⟩

/-- Concrete instantiation of `login_error_message_classes`: the
wrong-password failure for `dana` surfaces the generic credential
message. -/
theorem login_error_message_classes_witness :
    (loginUser totpDB "dana" "wrongpw" (some "000000") "d1" 0 "ak" "rk").2 =
      .error "Invalid username or password" :=
  (login_error_message_classes totpDB "dana" "wrongpw" "000000" "d1" 0 "ak" "rk").2.1
    totpUser (by decide) (by decide)

/-! ## Pre-auth enrollment refusal -/

/-- C6: the pre-auth 2FA enrollment variant refuses to run for any user
whose TOTP-enabled flag is already true — whatever password is supplied,
the call fails and the database (in particular that user's stored TOTP
secret) is unchanged, so no new secret is generated or stored. -/
theorem setup_initial_refuses_when_enabled (db : DB) (username password fresh : String)
    (u : User)
    (hfind : db.users.find? (fun x => decide (x.username = username)) = some u)
    (hon : u.two_factor_enabled = true) :
    (setup2FAInitial db username password fresh).1 = db ∧
    (∃ msg, (setup2FAInitial db username password fresh).2 = .error msg) := by
  cases hpw : verifyPassword password u.password_hash with
  | true =>
    exact ⟨by simp [setup2FAInitial, hfind, hpw, hon],
      ⟨"2FA is already enabled", by simp [setup2FAInitial, hfind, hpw, hon]⟩⟩
  | false =>
    exact ⟨by simp [setup2FAInitial, hfind, hpw],
      ⟨"Invalid username or password", by simp [setup2FAInitial, hfind, hpw]⟩⟩

/-- Concrete instantiation of `setup_initial_refuses_when_enabled`: the
already-enrolled user `erin`, even with the correct password, cannot rerun
pre-auth enrollment; the database is unchanged. -/
theorem setup_initial_refuses_when_enabled_witness :
    (setup2FAInitial enabledDB "erin" "erinpw" "NEWSECRET").1 = enabledDB :=
  (setup_initial_refuses_when_enabled enabledDB "erin" "erinpw" "NEWSECRET"
    enabledUser (by decide) (by decide)).1

/-! ## Authenticated re-enrollment overwrite -/

/-- C10: the authenticated 2FA setup operation succeeds for every existing
user — including one whose TOTP-enabled flag is already true — and
unconditionally overwrites the stored TOTP secret with the freshly
generated one, leaving the TOTP-enabled flag and every other field of that
user unchanged, and touching no other user row, no session row, and
neither id counter. -/
theorem setup2FA_unconditional_overwrite (db : DB) (uid : Nat) (fresh : String)
    (u : User) (hu : u ∈ db.users) (hid : u.id = uid) :
    (∃ out, (setup2FA db uid fresh).2 = .ok out ∧ out.1 = fresh) ∧
    { u with two_factor_secret := some fresh } ∈ (setup2FA db uid fresh).1.users ∧
    (∀ v ∈ db.users, v.id ≠ uid → v ∈ (setup2FA db uid fresh).1.users) ∧
    (setup2FA db uid fresh).1.sessions = db.sessions ∧
    (setup2FA db uid fresh).1.users.length = db.users.length ∧
    (setup2FA db uid fresh).1.nextUserId = db.nextUserId ∧
    (setup2FA db uid fresh).1.nextSessionId = db.nextSessionId := by
  subst hid
  have hsome : (db.users.find? (fun x => decide (x.id = u.id))).isSome := by
    rw [List.find?_isSome]
    exact ⟨u, hu, by simp⟩
  cases hfind : db.users.find? (fun x => decide (x.id = u.id)) with
  | none => rw [hfind] at hsome; cases hsome
  | some w =>
    refine ⟨⟨(fresh, "data:image/png;qr:" ++ w.username ++ ":" ++ fresh),
        by simp [setup2FA, hfind], rfl⟩, ?_, ?_, by simp [setup2FA, hfind],
      by simp [setup2FA, hfind], by simp [setup2FA, hfind], by simp [setup2FA, hfind]⟩
    · have hm := List.mem_map_of_mem
        (f := fun x => if x.id = u.id then { x with two_factor_secret := some fresh } else x) hu
      simp only [if_pos rfl] at hm
      simpa [setup2FA, hfind] using hm
    · intro v hv hne
      have hm := List.mem_map_of_mem
        (f := fun x => if x.id = u.id then { x with two_factor_secret := some fresh } else x) hv
      simp only [if_neg hne] at hm
      simpa [setup2FA, hfind] using hm

/-- Concrete instantiation of `setup2FA_unconditional_overwrite`: `erin`
already has TOTP enabled, yet the authenticated setup replaces her stored
secret while her enabled flag stays true. -/
theorem setup2FA_unconditional_overwrite_witness :
    { enabledUser with two_factor_secret := some "NEWSECRET" } ∈
      (setup2FA enabledDB 3 "NEWSECRET").1.users :=
  (setup2FA_unconditional_overwrite enabledDB 3 "NEWSECRET" enabledUser
    (by simp [enabledDB]) rfl).2.1

/-! ## Malformed TOTP code handling -/

theorem verifyToken_shortcircuit (secret code : String) (step : Int)
    (h : code.length ≠ 6 ∨ jsParseInt code = none) :
    verifyToken secret code step = false ∧ totpProbes secret code step = 0 := by
  unfold verifyToken speakeasyTotpVerify totpProbes
  rcases h with h | h
  · rw [if_neg h, if_neg h]
    exact ⟨rfl, rfl⟩
  · by_cases hlen : code.length = 6
    · rw [if_pos hlen, if_pos hlen, h]
      exact ⟨rfl, rfl⟩
    · rw [if_neg hlen, if_neg hlen]
      exact ⟨rfl, rfl⟩

/-- C8 (amended): a submitted code that is not exactly 6 ASCII digits is
rejected without computing any TOTP value on the pre-auth confirm route
(its `^\d\x7b6\x7d$` format check), and on the login and authenticated
confirm paths whenever the code's length differs from 6 or it has no
leading digit — speakeasy's own length and `parseInt`-NaN pre-checks
return before the digest loop.  But a 6-character code with a leading
digit and a non-digit remainder (such as `12a456`) passes those
pre-checks on the login and authenticated confirm paths and reaches the
digest loop, where it is compared by parsed integer value: it is accepted
exactly when some digest in the ±2 window has that parsed value, so such
malformed codes are neither uniformly short-circuited nor even uniformly
rejected. -/
theorem malformed_code_handling (db : DB)
    (username password code d : String) (uid : Nat) (now : Int) (ak rk : String)
    (hbad : isSixDigitCode code = false) :
    (verifyInitialRouteTotpCost db username password code now = 0 ∧
     (verifyInitialRoute db username password code now).1 = db ∧
     ∃ m1, (verifyInitialRoute db username password code now).2 = .error m1) ∧
    ((code.length ≠ 6 ∨ jsParseInt code = none) →
      ((loginUser db username password (some code) d now ak rk).1 = db ∧
       (∃ m2, (loginUser db username password (some code) d now ak rk).2 = .error m2) ∧
       loginTotpCost db username password (some code) now = 0) ∧
      ((verifyAndEnable2FA db uid code now).1 = db ∧
       (∃ m3, (verifyAndEnable2FA db uid code now).2 = .error m3) ∧
       verifyAndEnable2FATotpCost db uid code now = 0)) ∧
    (∀ n : Int, jsParseInt code = some n → ∀ secret step,
      (verifyToken secret code step = true ↔
        code.length = 6 ∧ ∃ dd : Int, -2 ≤ dd ∧ dd ≤ 2 ∧
          jsParseInt (totpValue secret (step + dd)) = some n)) := by
  refine ⟨⟨?_, ?_, ?_⟩, ?_, ?_⟩
  · unfold verifyInitialRouteTotpCost
    split
    · rfl
    · rw [hbad]
      simp
  · unfold verifyInitialRoute
    split
    · rfl
    · rw [hbad]
      simp
  · unfold verifyInitialRoute
    split
    · exact ⟨_, rfl⟩
    · rw [hbad]
      simp
  · intro hsc
    have hvt : ∀ secret step, verifyToken secret code step = false :=
      fun secret step => (verifyToken_shortcircuit secret code step hsc).1
    have hprobe : ∀ secret step, totpProbes secret code step = 0 :=
      fun secret step => (verifyToken_shortcircuit secret code step hsc).2
    refine ⟨⟨?_, ?_, ?_⟩, ?_, ?_, ?_⟩
    · unfold loginUser
      cases hfind : findUserByName db username with
      | none => rfl
      | some u =>
        cases hpw : verifyPassword password u.password_hash with
        | false => simp [hpw]
        | true =>
          cases hon : u.two_factor_enabled with
          | false => simp [hpw, hon]
          | true =>
            cases hne : code.isEmpty with
            | true => simp [hpw, hon, hne]
            | false => simp [hpw, hon, hne, hvt]
    · unfold loginUser
      cases hfind : findUserByName db username with
      | none => exact ⟨"Invalid username or password", rfl⟩
      | some u =>
        cases hpw : verifyPassword password u.password_hash with
        | false => exact ⟨"Invalid username or password", by simp [hpw]⟩
        | true =>
          cases hon : u.two_factor_enabled with
          | false =>
            exact ⟨"2FA must be enabled. Please complete 2FA setup.", by simp [hpw, hon]⟩
          | true =>
            cases hne : code.isEmpty with
            | true => exact ⟨"2FA code required", by simp [hpw, hon, hne]⟩
            | false => exact ⟨"Invalid 2FA code", by simp [hpw, hon, hne, hvt]⟩
    · unfold loginTotpCost
      cases hfind : findUserByName db username with
      | none => rfl
      | some u =>
        cases hpw : verifyPassword password u.password_hash with
        | false => simp [hpw]
        | true =>
          cases hon : u.two_factor_enabled with
          | false => simp [hpw, hon]
          | true =>
            cases hne : code.isEmpty with
            | true => simp [hpw, hon, hne]
            | false => simp [hpw, hon, hne, hprobe]
    · unfold verifyAndEnable2FA
      cases hfind : db.users.find? (fun x => decide (x.id = uid)) with
      | none => rfl
      | some u =>
        cases hsec : u.two_factor_secret with
        | none => simp [hsec]
        | some sec => simp [hsec, hvt]
    · unfold verifyAndEnable2FA
      cases hfind : db.users.find? (fun x => decide (x.id = uid)) with
      | none => exact ⟨"2FA secret not found. Please setup 2FA first.", rfl⟩
      | some u =>
        cases hsec : u.two_factor_secret with
        | none => exact ⟨"2FA secret not found. Please setup 2FA first.", by simp [hsec]⟩
        | some sec => exact ⟨"Invalid 2FA code", by simp [hsec, hvt]⟩
    · unfold verifyAndEnable2FATotpCost
      cases hfind : db.users.find? (fun x => decide (x.id = uid)) with
      | none => rfl
      | some u =>
        cases hsec : u.two_factor_secret with
        | none => simp [hsec]
        | some sec => simp [hsec, hprobe]
  · intro n hp secret step
    rw [verifyToken_eq_true_iff]
    constructor
    · rintro ⟨hlen, n2, hn2, dd, hdd1, hdd2, hdd3⟩
      rw [hp] at hn2
      injection hn2 with hn2
      subst hn2
      exact ⟨hlen, dd, hdd1, hdd2, hdd3⟩
    · rintro ⟨hlen, dd, hdd1, hdd2, hdd3⟩
      exact ⟨hlen, n, hp, dd, hdd1, hdd2, hdd3⟩

/-- Counterexample to C8 as stated: the code `12a456` is not exactly 6
ASCII digits, yet at time `acceptedNow` the login path ACCEPTS it for the
enrolled user `dana` — speakeasy's `parseInt` reads it as 12 and the
digest at the current step is `000012` — so a malformed code is not even
always rejected, let alone rejected without computing TOTP, on every
path. -/
theorem malformed_code_accepted_counterexample :
    isSixDigitCode "12a456" = false ∧
    (loginUser totpDB "dana" "danapw" (some "12a456") "d1" acceptedNow "ak" "rk").2 =
      .ok malformedLoginOut :=
  ⟨by decide, by decide⟩

/-- Concrete instantiation of `malformed_code_handling`: the
verify-initial route rejects the 5-character code `12345` with zero TOTP
computations, and on the login path speakeasy's length pre-check likewise
rejects it with zero TOTP computations. -/
theorem malformed_code_handling_witness :
    verifyInitialRouteTotpCost totpDB "dana" "danapw" "12345" 0 = 0 ∧
    loginTotpCost totpDB "dana" "danapw" (some "12345") 0 = 0 :=
  ⟨(malformed_code_handling totpDB "dana" "danapw" "12345" "d1" 2 0 "ak" "rk"
      (by decide)).1.1,
   ((malformed_code_handling totpDB "dana" "danapw" "12345" "d1" 2 0 "ak" "rk"
      (by decide)).2.1 (Or.inl (by decide))).1.2.2⟩

/-! ## Refresh-token rotation -/

theorem sessionMatches_iff (t : Jwt) (d : String) (now : Int) (s : Session) :
    sessionMatches t d now s = true ↔
      s.refresh_token = t ∧ s.device_id = d ∧ now < s.expires_at := by
  simp [sessionMatches, Bool.and_eq_true, decide_eq_true_eq, and_assoc]

/-- C2: a refresh succeeds exactly when the cryptographic refresh-token
verification passes and a ledger session matching the exact token and
device id with expiry strictly in the future exists; and after a
successful refresh the matched session row carries the newly issued
refresh token, so replaying the old refresh token with the same device id
at the same instant fails with the invalid/expired error.  The uniqueness
hypothesis says no two distinct ledger rows match the old (token, device)
pair, and the freshness hypothesis says the old token is not the token the
issuer would mint at this instant — both hold of tokens actually issued by
the service, whose issue times precede the refresh call. -/
theorem refresh_rotation_single_use (db : DB) (t : Jwt) (d : String) (now : Int)
    (ak rk : String) (db' : DB) (pr : Jwt × Jwt)
    (hok : refreshAccessToken db t d now ak rk = (db', .ok pr))
    (huniq : ∀ s1 ∈ db.sessions, ∀ s2 ∈ db.sessions,
      sessionMatches t d now s1 = true → sessionMatches t d now s2 = true → s1.id = s2.id)
    (hfresh : ∀ s ∈ db.sessions, t ≠ generateRefreshToken s.user_id now rk) :
    (refreshAccessToken db' t d now ak rk).2 = .error "Invalid or expired refresh token" ∧
    (∃ s, db.sessions.find? (sessionMatches t d now) = some s ∧
      pr.2 = generateRefreshToken s.user_id now rk ∧
      { s with refresh_token := pr.2, expires_at := now + refreshTokenTtl } ∈ db'.sessions) ∧
    (∀ (db2 : DB) (t2 : Jwt) (d2 : String) (now2 : Int),
      (∃ v, (refreshAccessToken db2 t2 d2 now2 ak rk).2 = .ok v) ↔
        ((verifyRefreshToken t2 rk now2).isSome = true ∧
         ∃ s2 ∈ db2.sessions, s2.refresh_token = t2 ∧ s2.device_id = d2 ∧
           now2 < s2.expires_at)) := by
  unfold refreshAccessToken at hok
  cases hv : verifyRefreshToken t rk now with
  | none => rw [hv] at hok; simp at hok
  | some uid =>
    rw [hv] at hok
    cases hf : db.sessions.find? (sessionMatches t d now) with
    | none => rw [hf] at hok; simp at hok
    | some s =>
      rw [hf] at hok
      simp only [Prod.mk.injEq] at hok
      obtain ⟨hdb, hres⟩ := hok
      injection hres with hpr
      subst hdb
      subst hpr
      have hs : s ∈ db.sessions := List.mem_of_find?_eq_some hf
      have hsm : sessionMatches t d now s = true := List.find?_some hf
      refine ⟨?_, ?_, ?_⟩
      · unfold refreshAccessToken
        rw [hv]
        have hnone : (List.map (fun x =>
            if x.id = s.id then
              { x with refresh_token := generateRefreshToken s.user_id now rk,
                       expires_at := now + refreshTokenTtl }
            else x) db.sessions).find? (sessionMatches t d now) = none := by
          rw [List.find?_eq_none]
          intro x hx
          obtain ⟨y, hy, rfl⟩ := List.mem_map.mp hx
          by_cases hyid : y.id = s.id
          · rw [if_pos hyid]
            intro hm
            rw [sessionMatches_iff] at hm
            exact hfresh s hs hm.1.symm
          · rw [if_neg hyid]
            intro hm
            exact hyid (huniq y hy s hs hm hsm)
        rw [hnone]
      · exact ⟨s, rfl, rfl, by
          have hm := List.mem_map_of_mem (f := fun x =>
            if x.id = s.id then
              { x with refresh_token := generateRefreshToken s.user_id now rk,
                       expires_at := now + refreshTokenTtl }
            else x) hs
          simpa using hm⟩
      · intro db2 t2 d2 now2
        unfold refreshAccessToken
        cases hv2 : verifyRefreshToken t2 rk now2 with
        | none => simp [List.find?_eq_none, sessionMatches_iff]
        | some uid2 =>
          cases hf2 : db2.sessions.find? (sessionMatches t2 d2 now2) with
          | none =>
            simp only [Option.isSome_some, true_and]
            constructor
            · rintro ⟨v, hvv⟩
              simp at hvv
            · rintro ⟨s2, hs2, hm2⟩
              have := List.find?_eq_none.mp hf2 s2 hs2
              rw [sessionMatches_iff] at this
              exact absurd hm2 this
          | some s2 =>
            simp only [Option.isSome_some, true_and]
            constructor
            · intro _
              exact ⟨s2, List.mem_of_find?_eq_some hf2,
                (sessionMatches_iff t2 d2 now2 s2).mp (List.find?_some hf2)⟩
            · intro _
              exact ⟨_, rfl⟩

/-- Concrete instantiation of `refresh_rotation_single_use`: after the
successful refresh of `oldRefreshTok` at time 1000 on device `d1`,
replaying `oldRefreshTok` on the rotated ledger fails with the
invalid/expired error. -/
theorem refresh_rotation_single_use_witness :
    (refreshAccessToken sessDBRotated oldRefreshTok "d1" 1000 "ak" "rk").2 =
      .error "Invalid or expired refresh token" :=
  (refresh_rotation_single_use sessDB oldRefreshTok "d1" 1000 "ak" "rk"
    sessDBRotated rotatedPair (by decide) (by decide) (by decide)).1

/-! ## Secret store resolution -/

/-- C9: `getOrGenerateSecrets` resolves with first-match-wins order — if
all three secrets are present (set and nonempty) as operator
configuration they are used verbatim and no file write happens; otherwise
if the persisted secrets file provides all three they are used verbatim
and no file write happens; otherwise the three fresh random values are
used and persisted to the secrets file with owner-only permissions (mode
`0o600`) before being returned. -/
theorem secrets_resolution_order (env : EnvVars) (file : Option String)
    (va vb vc a b c ts : String) :
    (env.jwtSecret = some va → env.jwtRefreshSecret = some vb →
     env.encryptionKey = some vc → va ≠ "" → vb ≠ "" → vc ≠ "" →
     getOrGenerateSecrets env file a b c ts =
       ({ jwtSecret := va, jwtRefreshSecret := vb, encryptionKey := vc }, none)) ∧
    (envAllTruthy env = false → fileAllTruthy file = true →
     getOrGenerateSecrets env file a b c ts = (fileBundle file, none)) ∧
    (envAllTruthy env = false → fileAllTruthy file = false →
     getOrGenerateSecrets env file a b c ts =
       ({ jwtSecret := a, jwtRefreshSecret := b, encryptionKey := c },
        some (saveSecretsToFile
          { jwtSecret := a, jwtRefreshSecret := b, encryptionKey := c } ts)) ∧
     (saveSecretsToFile
        { jwtSecret := a, jwtRefreshSecret := b, encryptionKey := c } ts).mode = 0o600) := by
  refine ⟨?_, ?_, ?_⟩
  · intro h1 h2 h3 hne1 hne2 hne3
    have hva : va.isEmpty = false :=
      Bool.eq_false_iff.mpr (fun hh => hne1 ((String.isEmpty_iff va).mp hh))
    have hvb : vb.isEmpty = false :=
      Bool.eq_false_iff.mpr (fun hh => hne2 ((String.isEmpty_iff vb).mp hh))
    have hvc : vc.isEmpty = false :=
      Bool.eq_false_iff.mpr (fun hh => hne3 ((String.isEmpty_iff vc).mp hh))
    have ht : (truthyOpt env.jwtSecret && truthyOpt env.jwtRefreshSecret &&
        truthyOpt env.encryptionKey) = true := by
      simp [truthyOpt, h1, h2, h3, hva, hvb, hvc]
    unfold getOrGenerateSecrets
    rw [if_pos ht]
    simp [h1, h2, h3]
  · intro henv hfile
    unfold envAllTruthy at henv
    unfold fileAllTruthy at hfile
    unfold getOrGenerateSecrets
    rw [if_neg (by simp [henv])]
    cases hload : loadSecretsFromFile file with
    | none =>
      simp only [hload] at hfile
      exact absurd hfile (by decide)
    | some m =>
      simp only [hload] at hfile
      simp only [hload]
      rw [if_pos hfile]
      simp [fileBundle, hload]
  · intro henv hfile
    unfold envAllTruthy at henv
    unfold fileAllTruthy at hfile
    unfold getOrGenerateSecrets
    rw [if_neg (by simp [henv])]
    cases hload : loadSecretsFromFile file with
    | none =>
      constructor
      · simp only [hload]
      · rfl
    | some m =>
      simp only [hload] at hfile
      simp only [hload]
      rw [if_neg (by simp [hfile])]
      exact ⟨rfl, rfl⟩

/-- Concrete instantiation of `secrets_resolution_order`: with all three
secrets configured by the operator, they are returned verbatim and the
secrets file is not written. -/
theorem secrets_resolution_order_witness :
    getOrGenerateSecrets envAllExample none "g1" "g2" "g3" "2025-01-01" =
      ({ jwtSecret := "opkey1", jwtRefreshSecret := "opkey2",
         encryptionKey := "opkey3" }, none) :=
  (secrets_resolution_order envAllExample none "opkey1" "opkey2" "opkey3"
    "g1" "g2" "g3" "2025-01-01").1 rfl rfl rfl (by decide) (by decide) (by decide)
